import Mathlib

/-!
# ENSF460 Lab 04: button / ADC / UART mode controller

A shallow embedding of `assignment4_main.c`, `IOs.c`, `TIMERs.c` and `ADC.c`.

* The special function registers and the three globals are fields of `State`.
* The UART helpers (`Disp2String`, `XmitUART2`, `Disp2Hex`, `Disp2Dec`) live in
  `UART2.c`, which is outside the sources; every call is appended to the log
  `State.uart`.
* `Idle()` and the polling loop of `do_adc` are the points where the program
  waits for the hardware.  What happens while it waits is an `Event`: the
  interrupt handlers that run, the pin levels afterwards, the conversion
  result, and whether the flags `CN_event` / `TIMER2_event` get set.  No function
  of the sources writes a non-zero value to either flag, so setting them is an
  action of the environment.
* A function that waits takes the list of events still to come and returns
  `none` when the list ends while it is still waiting.
-/

namespace Lab04

/-! ## Data model -/

/-- The `state_t` enumeration of `assignment4_main.c`. -/
inductive state_t where
  | MODE0
  | MODE1_waiting
  | MODE1_sending
  deriving DecidableEq, Repr

/-- One call of a routine of `UART2.c`, as recorded in the transmit log. -/
inductive Tx where
  | Disp2String (str : String)
  | XmitUART2 (c : Char) (repeatNo : Nat)
  | Disp2Hex (v : Nat)
  | Disp2Dec (v : Nat)
  deriving DecidableEq, Repr

/-- The interrupt vectors that have a handler in `assignment4_main.c`. -/
inductive Irq where
  | T2
  | T3
  | CN
  deriving DecidableEq, Repr

/-- Globals, special function registers and the transmit log. -/
structure State where
  prog_st : state_t
  CN_event : Nat
  TIMER2_event : Nat
  -- port pins
  RB7 : Nat
  RA4 : Nat
  -- IOinit
  TRISB7 : Nat
  CN23PUE : Nat
  CN23IE : Nat
  TRISA4 : Nat
  CN0PUE : Nat
  CN0IE : Nat
  CNIP : Nat
  CNIF : Nat
  CNIE : Nat
  -- timer 2
  T2CON_T32 : Nat
  T2CON_TCKPS : Nat
  T2CON_TCS : Nat
  T2CON_TSIDL : Nat
  T2CON_TGATE : Nat
  T2CON_TON : Nat
  T2IP : Nat
  T2IF : Nat
  T2IE : Nat
  PR2 : Nat
  TMR2 : Nat
  -- timer 3
  T3IF : Nat
  TMR3 : Nat
  T3CON_TON : Nat
  -- ADC
  AD1PCFG : Nat
  TRISA2 : Nat
  ADON : Nat
  SAMP : Nat
  FORM : Nat
  SSRC : Nat
  ASAM : Nat
  VCFG : Nat
  CSCNA : Nat
  SMPI : Nat
  BUFM : Nat
  ALTS : Nat
  ADRC : Nat
  SAMC : Nat
  ADCS : Nat
  CH0NA : Nat
  CH0SA : Nat
  ADC1BUF0 : Nat
  -- calls into UART2.c, oldest first
  uart : List Tx
  deriving DecidableEq, Repr

/-- What the hardware and the interrupt handlers do while the program waits. -/
structure Event where
  isrs : List Irq
  setCN : Bool
  setTIMER2 : Bool
  RB7 : Nat
  RA4 : Nat
  ADC1BUF0 : Nat
  deriving DecidableEq, Repr

/-! ## Interrupt handlers (`assignment4_main.c`) -/

/-- The handler `_T2Interrupt`. -/
def _T2Interrupt (s : State) : State :=
  { s with T2IF := 0 }

/-- The handler `_T3Interrupt`. -/
def _T3Interrupt (s : State) : State :=
  { s with T3IF := 0, TMR3 := 0, T3CON_TON := 1 }

/-- The handler `_CNInterrupt`. -/
def _CNInterrupt (s : State) : State :=
  { s with CNIF := 0 }

/-- Dispatch of one interrupt to its handler. -/
def runIsr (s : State) : Irq → State
  | Irq.T2 => _T2Interrupt s
  | Irq.T3 => _T3Interrupt s
  | Irq.CN => _CNInterrupt s

/-- Effect of an event on the state: the handlers run, the pins take their new
levels, and the environment may set (never clear) the two flags. -/
def async (e : Event) (s : State) : State :=
  let s1 := e.isrs.foldl runIsr s
  { s1 with
    CN_event := if e.setCN then 1 else s1.CN_event,
    TIMER2_event := if e.setTIMER2 then 1 else s1.TIMER2_event,
    RB7 := e.RB7,
    RA4 := e.RA4 }

/-- The instruction `Idle()`: the CPU sleeps until the event `e` wakes it. -/
def Idle (e : Event) (s : State) : State :=
  async e s

/-- A loop `while (c) { body }` in which every pass through the body consumes
one item of the environment; `none` when the environment ends while the
condition still holds. -/
def whileLoop {σ ε : Type} (c : σ → Bool) (body : ε → σ → σ) :
    List ε → σ → Option (σ × List ε)
  | [], s => if c s then none else some (s, [])
  | e :: env, s => if c s then whileLoop c body env (body e s) else some (s, e :: env)

/-- State after the passes through `body` that consume the items `env`. -/
def passes {σ ε : Type} (body : ε → σ → σ) : List ε → σ → σ
  | [], s => s
  | e :: env, s => passes body env (body e s)

/-- The loop `while (c) Idle();`. -/
def idleWhile (c : State → Bool) (env : List Event) (s : State) :
    Option (State × List Event) :=
  whileLoop c Idle env s

/-! ## `IOs.c` -/

/-- The C operator `!` on an integer. -/
def lnot (x : Nat) : Nat :=
  if x = 0 then 1 else 0

/-- The function `IOinit`. -/
def IOinit (s : State) : State :=
  { s with
    TRISB7 := 1, CN23PUE := 1, CN23IE := 1,
    TRISA4 := 1, CN0PUE := 1, CN0IE := 1,
    CNIP := 3, CNIF := 0, CNIE := 1 }

/-- The function `IOCheck`; the parameter is never read (and the callers pass
none), the result is a `uint8_t`. -/
def IOCheck (check_duration : Nat) (s : State) : Nat :=
  ((lnot s.RB7 <<< 1) ||| lnot s.RA4) % 256

/-! ## `ADC.c` -/

/-- The function `do_adc`.  The event `e` is what happens while the code polls
`AD1CON1bits.DONE`; it delivers the conversion result in `ADC1BUF0`. -/
def do_adc (e : Event) (s : State) : Nat × State :=
  let s := { s with ADON := 0 }
  let s := { s with AD1PCFG := 0xFFFF }
  let s := { s with AD1PCFG := s.AD1PCFG &&& 0xFFEF }
  let s := { s with TRISA2 := 1 }
  let s := { s with FORM := 0, SSRC := 7, ASAM := 0 }
  let s := { s with VCFG := 0, CSCNA := 0, SMPI := 0, BUFM := 0, ALTS := 0 }
  let s := { s with ADRC := 0, SAMC := 16, ADCS := 10 }
  let s := { s with CH0NA := 0, CH0SA := 4 }
  let s := { s with ADON := 1, SAMP := 1 }
  let s := { async e s with ADC1BUF0 := e.ADC1BUF0 % 65536 }
  let ADCvalue := s.ADC1BUF0 &&& 0x03FF
  let s := { s with SAMP := 0 }
  let s := { s with ADON := 0 }
  (ADCvalue, s)

/-! ## `TIMERs.c` -/

/-- The function `TIMERinit`. -/
def TIMERinit (s : State) : State :=
  { s with
    T2CON_T32 := 0, T2CON_TCKPS := 3, T2CON_TCS := 0, T2CON_TSIDL := 0,
    T2CON_TGATE := 0, T2IP := 2, T2IF := 0, T2IE := 1 }

/-- Timer set-up shared by `delay_ms` and `delay_ms_itp`.  The product
`ms * ((float)250/256)` is exact in single precision for a 16-bit `ms`, and the
cast to `uint16_t` truncates it. -/
def delaySetup (ms : Nat) (s : State) : State :=
  { s with
    PR2 := ((ms % 65536) * 250 / 256) % 65536,
    TMR2 := 0,
    T2CON_TON := 1,
    TIMER2_event := 0 }

/-- The function `delay_ms`. -/
def delay_ms (ms : Nat) (env : List Event) (s : State) : Option (State × List Event) :=
  idleWhile (fun st => lnot st.TIMER2_event != 0) env (delaySetup ms s)

/-- The function `delay_ms_itp`. -/
def delay_ms_itp (ms : Nat) (env : List Event) (s : State) : Option (State × List Event) :=
  idleWhile (fun st => lnot st.TIMER2_event != 0 && lnot st.CN_event != 0) env (delaySetup ms s)

/-! ## `assignment4_main.c` -/

/-- The expression `(adc_val >> 12) + 1` stored in the `uint8_t num_chars`. -/
def num_chars (adc_val : Nat) : Nat :=
  ((adc_val >>> 12) + 1) % 256

/-- The four UART calls with which `run_mode0` reports the sample `adc_val`. -/
def mode0Report (adc_val : Nat) : List Tx :=
  [Tx.Disp2String ("\rMode 0: "),
   Tx.XmitUART2 '*' (num_chars adc_val),
   Tx.XmitUART2 ' ' 1,
   Tx.Disp2Hex adc_val]

/-- One pass through the `while(1)` loop of `run_mode0` after the `break`
test; the local `prev_adc` travels with the state. -/
def mode0Body (e : Event) (ps : Nat × State) : Nat × State :=
  let prev_adc := ps.1
  let r := do_adc e ps.2
  let adc_val := r.1
  let s := r.2
  if adc_val ≠ prev_adc then
    let prev_adc := adc_val
    let s := { s with uart := s.uart ++ [Tx.Disp2String ("\rMode 0: ")] }
    let s := { s with uart := s.uart ++ [Tx.XmitUART2 '*' (num_chars adc_val)] }
    let s := { s with uart := s.uart ++ [Tx.XmitUART2 ' ' 1] }
    let s := { s with uart := s.uart ++ [Tx.Disp2Hex adc_val] }
    (prev_adc, s)
  else
    (prev_adc, s)

/-- The function `run_mode0`: `while(1) { if(CN_event) break; ... }` runs the
body for as long as `CN_event` is zero. -/
def run_mode0 (env : List Event) (s : State) : Option (State × List Event) :=
  let prev_adc := 0
  match whileLoop (fun ps => lnot ps.2.CN_event != 0) mode0Body env (prev_adc, s) with
  | none => none
  | some ((_, s), rest) =>
    if IOCheck 0 s = 0b10 then some ({ s with prog_st := state_t.MODE1_waiting }, rest)
    else some (s, rest)

/-- The function `run_mode1_waiting`. -/
def run_mode1_waiting (env : List Event) (s : State) : Option (State × List Event) :=
  match idleWhile (fun st => lnot st.CN_event != 0) env s with
  | none => none
  | some (s, rest) =>
    match IOCheck 0 s with
    | 0b10 => some ({ s with prog_st := state_t.MODE0 }, rest)
    | 0b01 => some ({ s with prog_st := state_t.MODE1_sending }, rest)
    | _ => some (s, rest)

/-- One pass through the body of the `while(!CN_event)` loop of
`run_mode1_sending`: a conversion (event `p.1`), two UART calls, and `Idle()`
(event `p.2`). -/
def sendingBody (p : Event × Event) (s : State) : State :=
  let r := do_adc p.1 s
  let adc_val := r.1
  let s := r.2
  let s := { s with uart := s.uart ++ [Tx.Disp2Dec adc_val] }
  let s := { s with uart := s.uart ++ [Tx.XmitUART2 ',' 1] }
  Idle p.2 s

/-- The sync message `run_mode1_sending` sends before its loop. -/
def sendingSync (s : State) : State :=
  { s with uart := s.uart ++ [Tx.Disp2String ("Syncing - sample period (ms): 100\n")] }

/-- The function `run_mode1_sending`. -/
def run_mode1_sending (env : List (Event × Event)) (s : State) :
    Option (State × List (Event × Event)) :=
  let s := sendingSync s
  match whileLoop (fun st => lnot st.CN_event != 0) sendingBody env s with
  | none => none
  | some (s, rest) =>
    let s := { s with T3CON_TON := 0 }
    match IOCheck 0 s with
    | 0b10 => some ({ s with prog_st := state_t.MODE0 }, rest)
    | 0b01 => some ({ s with prog_st := state_t.MODE1_waiting }, rest)
    | _ => some (s, rest)

/-- Everything `main` does before its `while(1)`.  The routines `newClk` and
`InitUART2` are defined outside the sources and are parameters. -/
def mainInit (newClk : Nat → State → State) (InitUART2 : State → State) (s : State) : State :=
  let s := { s with AD1PCFG := 0xFFBF }
  let s := newClk 500 s
  let s := IOinit s
  let s := TIMERinit s
  let s := InitUART2 s
  { s with prog_st := state_t.MODE0 }

/-- The body of the `while(1)` loop of `main`: a `switch` whose three cases
are a bare `break`. -/
def mainLoopBody (s : State) : State :=
  match s.prog_st with
  | state_t.MODE0 => s
  | state_t.MODE1_waiting => s
  | state_t.MODE1_sending => s

/-- Iterations of the loop of `main`, one per event; the event is what the
hardware and the handlers do until the next iteration starts. -/
def mainLoop : List Event → State → State
  | [], s => s
  | e :: env, s => mainLoop env (async e (mainLoopBody s))

/-- State after a reset: zeroed globals, both buttons released (the inputs
are pulled up), empty transmit log. -/
def resetState : State :=
  { prog_st := state_t.MODE0, CN_event := 0, TIMER2_event := 0,
    RB7 := 1, RA4 := 1,
    TRISB7 := 1, CN23PUE := 0, CN23IE := 0, TRISA4 := 1, CN0PUE := 0, CN0IE := 0,
    CNIP := 4, CNIF := 0, CNIE := 0,
    T2CON_T32 := 0, T2CON_TCKPS := 0, T2CON_TCS := 0, T2CON_TSIDL := 0,
    T2CON_TGATE := 0, T2CON_TON := 0, T2IP := 4, T2IF := 0, T2IE := 0,
    PR2 := 0xFFFF, TMR2 := 0,
    T3IF := 0, TMR3 := 0, T3CON_TON := 0,
    AD1PCFG := 0, TRISA2 := 1, ADON := 0, SAMP := 0, FORM := 0, SSRC := 0, ASAM := 0,
    VCFG := 0, CSCNA := 0, SMPI := 0, BUFM := 0, ALTS := 0, ADRC := 0, SAMC := 0,
    ADCS := 0, CH0NA := 0, CH0SA := 0, ADC1BUF0 := 0,
    uart := [] }

/-- An event in which nothing happens and both buttons stay released. -/
def quiet : Event :=
  { isrs := [], setCN := false, setTIMER2 := false, RB7 := 1, RA4 := 1, ADC1BUF0 := 0 }

/-- A change notification with levels `rb7`, `ra4` on the pins: the handler
runs and the environment sets `CN_event`. -/
def press (rb7 ra4 : Nat) : Event :=
  { isrs := [Irq.CN], setCN := true, setTIMER2 := false, RB7 := rb7, RA4 := ra4, ADC1BUF0 := 0 }

/-- A conversion that delivers `raw` in `ADC1BUF0`, with nothing else going on. -/
def conv (raw : Nat) : Event :=
  { quiet with ADC1BUF0 := raw }

/-! ## The formulas of the specification -/

/-- Tick count as the specification words it, `1 + floor(sample / (RANGE/17))`
with `RANGE = 1024` and `RANGE/17` a real quotient, that is
`1 + floor(17 * sample / 1024)`. -/
def specNumChars (sample : Nat) : Nat :=
  1 + (17 * sample) / 1024

/-- Tick count as the specification words it, with `RANGE/17` taken as the C
integer quotient `1024 / 17 = 60`. -/
def specNumCharsInt (sample : Nat) : Nat :=
  1 + sample / (1024 / 17)

/-- The value `do_adc` returns for the conversion delivered by `e`. -/
def sampleOf (e : Event) : Nat :=
  (e.ADC1BUF0 % 65536) &&& 0x03FF

/-- Samples that differ from their predecessor, `prev` being the predecessor
of the first. -/
def changes : Nat → List Nat → List Nat
  | _, [] => []
  | prev, v :: vs => if v ≠ prev then v :: changes v vs else changes prev vs

/-- The UART calls of one report per sample of `vs` that differs from its
predecessor, oldest first. -/
def reportsFrom : Nat → List Nat → List Tx
  | _, [] => []
  | prev, v :: vs =>
    if v ≠ prev then mode0Report v ++ reportsFrom v vs else reportsFrom prev vs

/-! ## General facts about the loops -/

theorem whileLoop_exit {σ ε : Type} (c : σ → Bool) (body : ε → σ → σ)
    (l rest : List ε) (s : σ)
    (hq : ∀ k, k < l.length → c (passes body (l.take k) s) = true)
    (hw : c (passes body l s) = false) :
    whileLoop c body (l ++ rest) s = some (passes body l s, rest) := by
  induction l generalizing s with
  | nil =>
    have hw0 : c s = false := by simpa [passes] using hw
    cases rest <;> simp [whileLoop, passes, hw0]
  | cons e l ih =>
    have h0 : c s = true := by simpa [passes] using hq 0 (by simp)
    have hstep : whileLoop c body (e :: l ++ rest) s
        = whileLoop c body (l ++ rest) (body e s) := by
      simp [whileLoop, h0]
    rw [hstep]
    have hq2 : ∀ k, k < l.length → c (passes body (l.take k) (body e s)) = true := by
      intro k hk
      have := hq (k + 1) (by simp; omega)
      simpa [passes] using this
    have hw2 : c (passes body l (body e s)) = false := by simpa [passes] using hw
    simpa [passes] using ih (body e s) hq2 hw2

theorem whileLoop_stuck {σ ε : Type} (c : σ → Bool) (body : ε → σ → σ)
    (l : List ε) (s : σ)
    (hq : ∀ k, k ≤ l.length → c (passes body (l.take k) s) = true) :
    whileLoop c body l s = none := by
  induction l generalizing s with
  | nil =>
    have h0 : c s = true := by simpa [passes] using hq 0 (by simp)
    simp [whileLoop, h0]
  | cons e l ih =>
    have h0 : c s = true := by simpa [passes] using hq 0 (by simp)
    have hq2 : ∀ k, k ≤ l.length → c (passes body (l.take k) (body e s)) = true := by
      intro k hk
      have := hq (k + 1) (by simp; omega)
      simpa [passes] using this
    simp [whileLoop, h0, ih (body e s) hq2]

theorem lnot_test (x : Nat) : (lnot x != 0) = true ↔ x = 0 := by
  unfold lnot
  by_cases h : x = 0 <;> simp [h]

theorem lnot_test_false (x : Nat) : (lnot x != 0) = false ↔ x ≠ 0 := by
  unfold lnot
  by_cases h : x = 0 <;> simp [h]

/-! ## What the handlers and the waits leave alone -/

theorem foldl_runIsr_prog_st (l : List Irq) (s : State) :
    (l.foldl runIsr s).prog_st = s.prog_st := by
  induction l generalizing s with
  | nil => rfl
  | cons i l ih =>
    rw [List.foldl_cons, ih]
    cases i <;> rfl

theorem foldl_runIsr_uart (l : List Irq) (s : State) :
    (l.foldl runIsr s).uart = s.uart := by
  induction l generalizing s with
  | nil => rfl
  | cons i l ih =>
    rw [List.foldl_cons, ih]
    cases i <;> rfl

theorem async_prog_st (e : Event) (s : State) : (async e s).prog_st = s.prog_st := by
  simp [async, foldl_runIsr_prog_st]

theorem async_uart (e : Event) (s : State) : (async e s).uart = s.uart := by
  simp [async, foldl_runIsr_uart]

theorem passes_Idle_prog_st (l : List Event) (s : State) :
    (passes Idle l s).prog_st = s.prog_st := by
  induction l generalizing s with
  | nil => rfl
  | cons e l ih => simp [passes, ih, Idle, async_prog_st]

theorem do_adc_fst (e : Event) (s : State) : (do_adc e s).1 = sampleOf e := by
  simp [do_adc, sampleOf]

theorem do_adc_prog_st (e : Event) (s : State) : (do_adc e s).2.prog_st = s.prog_st := by
  simp [do_adc, async_prog_st]

theorem do_adc_uart (e : Event) (s : State) : (do_adc e s).2.uart = s.uart := by
  simp [do_adc, async_uart]

theorem sendingBody_prog_st (p : Event × Event) (s : State) :
    (sendingBody p s).prog_st = s.prog_st := by
  simp [sendingBody, Idle, async_prog_st, do_adc_prog_st]

theorem passes_sendingBody_prog_st (l : List (Event × Event)) (s : State) :
    (passes sendingBody l s).prog_st = s.prog_st := by
  induction l generalizing s with
  | nil => rfl
  | cons e l ih => simp [passes, ih, sendingBody_prog_st]

theorem mode0Body_prog_st (e : Event) (ps : Nat × State) :
    (mode0Body e ps).2.prog_st = ps.2.prog_st := by
  unfold mode0Body
  simp only []
  split <;> simp [do_adc_prog_st]

theorem passes_mode0Body_prog_st (l : List Event) (ps : Nat × State) :
    (passes mode0Body l ps).2.prog_st = ps.2.prog_st := by
  induction l generalizing ps with
  | nil => rfl
  | cons e l ih => simp [passes, ih, mode0Body_prog_st]

theorem IOCheck_cases (d : Nat) (s : State) :
    IOCheck d s = 0 ∨ IOCheck d s = 1 ∨ IOCheck d s = 2 ∨ IOCheck d s = 3 := by
  unfold IOCheck lnot
  by_cases h1 : s.RB7 = 0 <;> by_cases h2 : s.RA4 = 0 <;> simp [h1, h2]

/-! ## Mode transitions -/

/-- C1: when `run_mode1_waiting`, entered in `MODE1_waiting`, wakes at the
first check of `CN_event` that finds it set, it returns, and the snapshot `b`
that `IOCheck` reads there decides the mode: `0b10` gives `MODE0`, `0b01`
gives `MODE1_sending`, any other value leaves the state as it is, so the mode
is still `MODE1_waiting`. -/
theorem run_mode1_waiting_transition (s : State) (l rest : List Event)
    (hmode : s.prog_st = state_t.MODE1_waiting)
    (hquiet : ∀ k, k < l.length → (passes Idle (l.take k) s).CN_event = 0)
    (hwake : (passes Idle l s).CN_event ≠ 0) :
    ∃ s1, run_mode1_waiting (l ++ rest) s = some (s1, rest) ∧
      (IOCheck 0 (passes Idle l s) = 0b10 →
        s1 = { passes Idle l s with prog_st := state_t.MODE0 } ∧
        s1.prog_st = state_t.MODE0) ∧
      (IOCheck 0 (passes Idle l s) = 0b01 →
        s1 = { passes Idle l s with prog_st := state_t.MODE1_sending } ∧
        s1.prog_st = state_t.MODE1_sending) ∧
      (IOCheck 0 (passes Idle l s) ≠ 0b10 → IOCheck 0 (passes Idle l s) ≠ 0b01 →
        s1 = passes Idle l s ∧ s1.prog_st = state_t.MODE1_waiting) := by
  have hloop := whileLoop_exit (fun st : State => lnot st.CN_event != 0) Idle l rest s
    (fun k hk => (lnot_test _).2 (hquiet k hk)) ((lnot_test_false _).2 hwake)
  have hkeep : (passes Idle l s).prog_st = state_t.MODE1_waiting := by
    rw [passes_Idle_prog_st, hmode]
  rcases IOCheck_cases 0 (passes Idle l s) with h | h | h | h <;>
    simp [run_mode1_waiting, idleWhile, hloop, h, hkeep]

/-- Witness for C1: one quiet wake-up, then a change notification with the
"start" button down (`RA4` low), moves `MODE1_waiting` to `MODE1_sending`. -/
theorem run_mode1_waiting_transition_witness :
    ∃ s1, run_mode1_waiting ([quiet, press 1 0] ++ [quiet])
        { resetState with prog_st := state_t.MODE1_waiting } = some (s1, [quiet]) ∧
      s1.prog_st = state_t.MODE1_sending := by
  obtain ⟨s1, hrun, _, h01, _⟩ :=
    run_mode1_waiting_transition { resetState with prog_st := state_t.MODE1_waiting }
      [quiet, press 1 0] [quiet] rfl
      (by intro k hk
          have hk2 : k < 2 := by simpa using hk
          interval_cases k <;> rfl)
      (by decide)
  exact ⟨s1, hrun, (h01 (by decide)).2⟩

/-- C2: when the sampling loop of `run_mode1_sending`, entered in
`MODE1_sending`, ends at the first check of `CN_event` that finds it set, the
function returns; `T3CONbits.TON` is cleared first, the snapshot `b` is read in
the state `off` in which it is already clear, and it is still clear on return;
`0b10` gives `MODE0`, `0b01` gives `MODE1_waiting`, and any other value leaves
the mode `MODE1_sending`. -/
theorem run_mode1_sending_transition (s : State) (l rest : List (Event × Event))
    (hmode : s.prog_st = state_t.MODE1_sending)
    (hquiet : ∀ k, k < l.length →
      (passes sendingBody (l.take k) (sendingSync s)).CN_event = 0)
    (hwake : (passes sendingBody l (sendingSync s)).CN_event ≠ 0) :
    ∃ s1 off, run_mode1_sending (l ++ rest) s = some (s1, rest) ∧
      off = { passes sendingBody l (sendingSync s) with T3CON_TON := 0 } ∧
      off.T3CON_TON = 0 ∧ s1.T3CON_TON = 0 ∧
      (IOCheck 0 off = 0b10 →
        s1 = { off with prog_st := state_t.MODE0 } ∧ s1.prog_st = state_t.MODE0) ∧
      (IOCheck 0 off = 0b01 →
        s1 = { off with prog_st := state_t.MODE1_waiting } ∧
        s1.prog_st = state_t.MODE1_waiting) ∧
      (IOCheck 0 off ≠ 0b10 → IOCheck 0 off ≠ 0b01 →
        s1 = off ∧ s1.prog_st = state_t.MODE1_sending) := by
  have hloop := whileLoop_exit (fun st : State => lnot st.CN_event != 0) sendingBody l rest
    (sendingSync s) (fun k hk => (lnot_test _).2 (hquiet k hk)) ((lnot_test_false _).2 hwake)
  have hkeep : (passes sendingBody l (sendingSync s)).prog_st = state_t.MODE1_sending := by
    rw [passes_sendingBody_prog_st]
    simpa [sendingSync] using hmode
  have key : ∀ off : State, off.prog_st = state_t.MODE1_sending → off.T3CON_TON = 0 →
      ∃ s1, (match IOCheck 0 off with
          | 0b10 => some ({ off with prog_st := state_t.MODE0 }, rest)
          | 0b01 => some ({ off with prog_st := state_t.MODE1_waiting }, rest)
          | _ => some (off, rest)) = some (s1, rest) ∧
        s1.T3CON_TON = 0 ∧
        (IOCheck 0 off = 0b10 →
          s1 = { off with prog_st := state_t.MODE0 } ∧ s1.prog_st = state_t.MODE0) ∧
        (IOCheck 0 off = 0b01 →
          s1 = { off with prog_st := state_t.MODE1_waiting } ∧
          s1.prog_st = state_t.MODE1_waiting) ∧
        (IOCheck 0 off ≠ 0b10 → IOCheck 0 off ≠ 0b01 →
          s1 = off ∧ s1.prog_st = state_t.MODE1_sending) := by
    intro off hm ht
    rcases IOCheck_cases 0 off with h | h | h | h <;> simp [h, hm, ht]
  obtain ⟨s1, h1, h2, h3⟩ :=
    key { passes sendingBody l (sendingSync s) with T3CON_TON := 0 } hkeep rfl
  refine ⟨s1, _, ?_, rfl, rfl, h2, h3⟩
  unfold run_mode1_sending
  simp only [hloop]
  exact h1

/-- Witness for C2: two samples are streamed, the change notification arrives
during the second `Idle()` with the "start" button down, and the mode goes from
`MODE1_sending` to `MODE1_waiting` with the pacing timer off. -/
theorem run_mode1_sending_transition_witness :
    ∃ s1, run_mode1_sending ([(conv 7, quiet), (conv 9, press 1 0)] ++ [])
        { resetState with prog_st := state_t.MODE1_sending, T3CON_TON := 1 } = some (s1, []) ∧
      s1.T3CON_TON = 0 ∧ s1.prog_st = state_t.MODE1_waiting := by
  obtain ⟨s1, off, hrun, hoff, _, hton, _, h01, _⟩ :=
    run_mode1_sending_transition
      { resetState with prog_st := state_t.MODE1_sending, T3CON_TON := 1 }
      [(conv 7, quiet), (conv 9, press 1 0)] [] rfl
      (by intro k hk
          have hk2 : k < 2 := by simpa using hk
          interval_cases k <;> rfl)
      (by decide)
  subst hoff
  exact ⟨s1, hrun, hton, (h01 (by decide)).2⟩

/-- C3: when the sampling loop of `run_mode0`, entered in `MODE0`, ends at the
first check of `CN_event` that finds it set, the function returns, and the
snapshot `b` read there decides the mode: `0b10` gives `MODE1_waiting`, every
other value leaves the state as it is, so the mode is still `MODE0`. -/
theorem run_mode0_transition (s : State) (l rest : List Event)
    (hmode : s.prog_st = state_t.MODE0)
    (hquiet : ∀ k, k < l.length → (passes mode0Body (l.take k) (0, s)).2.CN_event = 0)
    (hwake : (passes mode0Body l (0, s)).2.CN_event ≠ 0) :
    ∃ s1, run_mode0 (l ++ rest) s = some (s1, rest) ∧
      (IOCheck 0 (passes mode0Body l (0, s)).2 = 0b10 →
        s1 = { (passes mode0Body l (0, s)).2 with prog_st := state_t.MODE1_waiting } ∧
        s1.prog_st = state_t.MODE1_waiting) ∧
      (IOCheck 0 (passes mode0Body l (0, s)).2 ≠ 0b10 →
        s1 = (passes mode0Body l (0, s)).2 ∧ s1.prog_st = state_t.MODE0) := by
  have hloop := whileLoop_exit (fun ps : Nat × State => lnot ps.2.CN_event != 0) mode0Body
    l rest (0, s) (fun k hk => (lnot_test _).2 (hquiet k hk)) ((lnot_test_false _).2 hwake)
  have hkeep : (passes mode0Body l (0, s)).2.prog_st = state_t.MODE0 := by
    rw [passes_mode0Body_prog_st]
    exact hmode
  by_cases h : IOCheck 0 (passes mode0Body l (0, s)).2 = 2 <;>
    simp [run_mode0, hloop, h, hkeep]

/-- Witness for C3: two conversions, the change notification arrives during the
second with the "mode" button down (`RB7` low), and `MODE0` becomes
`MODE1_waiting`. -/
theorem run_mode0_transition_witness :
    ∃ s1, run_mode0 ([conv 5, { press 0 1 with ADC1BUF0 := 1023 }] ++ [quiet]) resetState
        = some (s1, [quiet]) ∧
      s1.prog_st = state_t.MODE1_waiting := by
  obtain ⟨s1, hrun, h10, _⟩ :=
    run_mode0_transition resetState [conv 5, { press 0 1 with ADC1BUF0 := 1023 }] [quiet] rfl
      (by intro k hk
          have hk2 : k < 2 := by simpa using hk
          interval_cases k <;> rfl)
      (by decide)
  exact ⟨s1, hrun, (h10 (by decide)).2⟩

/-! ## Reports in `MODE0` -/

theorem passes_mode0Body_uart (l : List Event) (prev : Nat) (s : State) :
    (passes mode0Body l (prev, s)).2.uart = s.uart ++ reportsFrom prev (l.map sampleOf) := by
  induction l generalizing prev s with
  | nil => simp [passes, reportsFrom]
  | cons e l ih =>
    by_cases h : sampleOf e = prev
    · have hb : mode0Body e (prev, s) = (prev, (do_adc e s).2) := by
        simp [mode0Body, do_adc_fst, h]
      simp [passes, hb, ih, reportsFrom, h, do_adc_uart]
    · have hb : mode0Body e (prev, s)
          = (sampleOf e, { (do_adc e s).2 with
              uart := (do_adc e s).2.uart ++ mode0Report (sampleOf e) }) := by
        simp [mode0Body, do_adc_fst, h, mode0Report]
      simp [passes, hb, ih, reportsFrom, h, do_adc_uart]

theorem reportsFrom_eq (prev : Nat) (vs : List Nat) :
    reportsFrom prev vs = ((changes prev vs).map mode0Report).flatten := by
  induction vs generalizing prev with
  | nil => simp [reportsFrom, changes]
  | cons v vs ih =>
    by_cases h : v = prev <;> simp [reportsFrom, changes, h, ih]

/-- C6, the code against the claim: with the samples 0, 1023, 1023 (the change
notification arriving during the third conversion) `run_mode0` makes one
report, for 1023, and none for the first sample 0, where the claim has two
(for 0 and for 1023); with the samples 1, 1023, 1023 it does make the two
reports, for the first sample and for 1023.  The first sample goes unreported
only when it equals the initial value 0 of `prev_adc`. -/
theorem run_mode0_first_sample_zero_unreported :
    (∃ s1, run_mode0 [conv 0, conv 1023, { press 1 1 with ADC1BUF0 := 1023 }] resetState
        = some (s1, []) ∧
      s1.uart = mode0Report 1023 ∧
      s1.uart.length = 4 ∧
      s1.uart ≠ mode0Report 0 ++ mode0Report 1023) ∧
    (∃ s2, run_mode0 [conv 1, conv 1023, { press 1 1 with ADC1BUF0 := 1023 }] resetState
        = some (s2, []) ∧
      s2.uart = mode0Report 1 ++ mode0Report 1023) := by
  refine ⟨⟨_, rfl, rfl, rfl, ?_⟩, ⟨_, rfl, rfl⟩⟩
  intro h
  have := congrArg List.length h
  revert this
  decide

/-- Transmit log of `run_mode0`: when the sampling loop ends at the first check
of `CN_event` that finds it set, the function returns and what it has sent is
one report (label, `num_chars` stars, a space, the sample in hex) for each
sample that differs from the value of `prev_adc` it is compared with, which is
0 for the first sample and the preceding sample afterwards. -/
theorem run_mode0_log (s : State) (l rest : List Event)
    (hquiet : ∀ k, k < l.length → (passes mode0Body (l.take k) (0, s)).2.CN_event = 0)
    (hwake : (passes mode0Body l (0, s)).2.CN_event ≠ 0) :
    ∃ s1, run_mode0 (l ++ rest) s = some (s1, rest) ∧
      s1.uart = s.uart ++ ((changes 0 (l.map sampleOf)).map mode0Report).flatten := by
  have hloop := whileLoop_exit (fun ps : Nat × State => lnot ps.2.CN_event != 0) mode0Body
    l rest (0, s) (fun k hk => (lnot_test _).2 (hquiet k hk)) ((lnot_test_false _).2 hwake)
  have hlog := passes_mode0Body_uart l 0 s
  rw [reportsFrom_eq] at hlog
  by_cases h : IOCheck 0 (passes mode0Body l (0, s)).2 = 2 <;>
    simp [run_mode0, hloop, h, hlog]

/-- The log of `run_mode0` on the samples 5, 5, 1023, 1023: two reports, for
the first 5 and the first 1023. -/
theorem run_mode0_log_example :
    ∃ s1, run_mode0 ([conv 5, conv 5, conv 1023, { press 1 1 with ADC1BUF0 := 1023 }] ++ [])
        resetState = some (s1, []) ∧
      s1.uart = mode0Report 5 ++ mode0Report 1023 := by
  obtain ⟨s1, hrun, hlog⟩ :=
    run_mode0_log resetState
      [conv 5, conv 5, conv 1023, { press 1 1 with ADC1BUF0 := 1023 }] []
      (by intro k hk
          have hk2 : k < 4 := by simpa using hk
          interval_cases k <;> rfl)
      (by decide)
  refine ⟨s1, hrun, ?_⟩
  rw [hlog]
  rfl

/-! ## The tick count -/

theorem sampleOf_le (e : Event) : sampleOf e ≤ 1023 := by
  unfold sampleOf
  exact Nat.and_le_right

theorem num_chars_eq_one (adc_val : Nat) (h : adc_val ≤ 1023) : num_chars adc_val = 1 := by
  unfold num_chars
  have h0 : adc_val >>> 12 = 0 := by
    rw [Nat.shiftRight_eq_div_pow]
    exact Nat.div_eq_of_lt (by omega)
  rw [h0]

theorem specNumChars_eq_floor (sample : Nat) :
    specNumChars sample = 1 + ⌊(sample : ℚ) / ((1024 : ℚ) / 17)⌋₊ := by
  have h : (sample : ℚ) / ((1024 : ℚ) / 17) = ((17 * sample : ℕ) : ℚ) / ((1024 : ℕ) : ℚ) := by
    push_cast
    ring
  rw [h, Nat.floor_div_eq_div]
  rfl

/-- C7, the code against the claim: at the sample 1023 `run_mode0` computes
`num_chars = 1`, where `1 + floor(sample / (RANGE/17))` is 17 (18 with the
integer quotient `1024/17 = 60`); and `num_chars` is 1 for every sample
`do_adc` returns, so the ticks 2..17 are never produced. -/
theorem num_chars_is_constant :
    num_chars 1023 = 1 ∧ specNumChars 1023 = 17 ∧ specNumCharsInt 1023 = 18 ∧
    (do_adc (conv 1023) resetState).1 = 1023 ∧
    ∀ (e : Event) (s : State), num_chars (do_adc e s).1 = 1 := by
  refine ⟨by decide, by decide, by decide, by decide, ?_⟩
  intro e s
  rw [do_adc_fst]
  exact num_chars_eq_one _ (sampleOf_le e)

/-- C8: for every sample in 0..1023 the count `num_chars` that `run_mode0`
computes lies in [1,17]; and every value `do_adc` returns is in 0..1023, so
the count is in [1,17] for every sample `run_mode0` can see. -/
theorem num_chars_range (sample : Nat) (h : sample ≤ 1023) :
    (1 ≤ num_chars sample ∧ num_chars sample ≤ 17) ∧
    ∀ (e : Event) (s : State), (do_adc e s).1 ≤ 1023 ∧
      1 ≤ num_chars (do_adc e s).1 ∧ num_chars (do_adc e s).1 ≤ 17 := by
  refine ⟨?_, ?_⟩
  · rw [num_chars_eq_one sample h]
    omega
  · intro e s
    rw [do_adc_fst, num_chars_eq_one _ (sampleOf_le e)]
    exact ⟨sampleOf_le e, by omega, by omega⟩

/-- Witness for C8 at the upper boundary sample 1023. -/
theorem num_chars_range_witness :
    (1023 ≤ 1023) ∧ 1 ≤ num_chars 1023 ∧ num_chars 1023 ≤ 17 :=
  ⟨le_refl _, (num_chars_range 1023 (le_refl _)).1⟩

/-! ## The change-notification flag -/

/-- C4, the code against the claim: `_CNInterrupt` clears `IFS1bits.CNIF` and
changes nothing else, so it leaves `CN_event` as it found it; run with the
flag clear and the interrupt pending, it returns with the flag still clear. -/
theorem CNInterrupt_leaves_CN_event :
    (_CNInterrupt { resetState with CNIF := 1 }).CN_event = 0 ∧
    (_CNInterrupt { resetState with CNIF := 1 }).CNIF = 0 ∧
    _CNInterrupt { resetState with CNIF := 1 } = resetState ∧
    ∀ s : State, (_CNInterrupt s).CN_event = s.CN_event ∧ (_CNInterrupt s).CNIF = 0 ∧
      (_CNInterrupt s).prog_st = s.prog_st :=
  ⟨rfl, rfl, rfl, fun _ => ⟨rfl, rfl, rfl⟩⟩

/-- C5, the code against the claim: in `MODE1_waiting` a notification that
sets `CN_event` while both buttons are released (snapshot `0b00`) makes
`run_mode1_waiting` return with the mode unchanged and `CN_event` still 1; a
second call then returns at once, without a single `Idle()`. -/
theorem run_mode1_waiting_keeps_CN_event (rest : List Event) :
    ∃ s1, run_mode1_waiting (press 1 1 :: rest)
        { resetState with prog_st := state_t.MODE1_waiting } = some (s1, rest) ∧
      IOCheck 0 s1 = 0b00 ∧
      s1.prog_st = state_t.MODE1_waiting ∧
      s1.CN_event = 1 ∧
      run_mode1_waiting rest s1 = some (s1, rest) := by
  refine ⟨Idle (press 1 1) { resetState with prog_st := state_t.MODE1_waiting },
    ?_, rfl, rfl, rfl, ?_⟩ <;>
  cases rest <;> rfl

/-! ## The two waits of `TIMERs.c` -/

/-- C9: with each `Idle()` a step of the environment, `delay_ms_itp` returns at
the first check of its loop condition at which `CN_event` or `TIMER2_event` is
set (in particular when `CN_event` is set and `TIMER2_event` is still clear),
having idled once per earlier check; `delay_ms` does not return for as long as
its checks find `TIMER2_event` clear, whatever the environment does to
`CN_event`. -/
theorem delay_waits (ms : Nat) (s : State) (l rest env : List Event)
    (hquiet : ∀ k, k < l.length →
      (passes Idle (l.take k) (delaySetup ms s)).TIMER2_event = 0 ∧
      (passes Idle (l.take k) (delaySetup ms s)).CN_event = 0)
    (hwake : (passes Idle l (delaySetup ms s)).CN_event ≠ 0 ∨
      (passes Idle l (delaySetup ms s)).TIMER2_event ≠ 0)
    (hclear : ∀ k, k ≤ env.length →
      (passes Idle (env.take k) (delaySetup ms s)).TIMER2_event = 0) :
    delay_ms_itp ms (l ++ rest) s = some (passes Idle l (delaySetup ms s), rest) ∧
    delay_ms ms env s = none := by
  constructor
  · unfold delay_ms_itp idleWhile
    apply whileLoop_exit
    · intro k hk
      obtain ⟨h1, h2⟩ := hquiet k hk
      simp [h1, h2, lnot]
    · rcases hwake with h | h <;> simp [lnot, h]
  · unfold delay_ms idleWhile
    apply whileLoop_stuck
    intro k hk
    simp [hclear k hk, lnot]

/-- Witness for C9: after one quiet wake-up a change notification sets
`CN_event` with `TIMER2_event` clear; `delay_ms_itp` returns there, leaving the
third event unconsumed, while `delay_ms` is still waiting after two change
notifications. -/
theorem delay_waits_witness :
    (∃ s1, delay_ms_itp 100 ([quiet, press 0 1] ++ [quiet]) resetState = some (s1, [quiet]) ∧
      s1.CN_event = 1 ∧ s1.TIMER2_event = 0) ∧
    delay_ms 100 [press 0 1, press 1 1] resetState = none := by
  have h := delay_waits 100 resetState [quiet, press 0 1] [quiet] [press 0 1, press 1 1]
    (by intro k hk
        have hk2 : k < 2 := by simpa using hk
        interval_cases k <;> exact ⟨rfl, rfl⟩)
    (Or.inl (by decide))
    (by intro k hk
        have hk2 : k ≤ 2 := by simpa using hk
        interval_cases k <;> rfl)
  exact ⟨⟨_, h.1, rfl, rfl⟩, h.2⟩

/-! ## `main` -/

theorem mainLoop_eq (env : List Event) (s : State) :
    (mainLoop env s).prog_st = s.prog_st ∧ (mainLoop env s).uart = s.uart := by
  induction env generalizing s with
  | nil => exact ⟨rfl, rfl⟩
  | cons e env ih =>
    have hb : mainLoopBody s = s := by
      unfold mainLoopBody
      cases s.prog_st <;> rfl
    obtain ⟨h1, h2⟩ := ih (async e s)
    simp [mainLoop, hb, h1, h2, async_prog_st, async_uart]

/-- C10: `main` sets `prog_st` to `MODE0` before its loop; the loop body leaves
every state exactly as it found it; hence after any number of iterations,
with any interrupts and pin changes in between, `prog_st` is `MODE0` and the
transmit log is what it was when the loop was entered (nothing is sampled or
sent, no `run_mode...` function runs). -/
theorem main_stays_in_MODE0 (newClk : Nat → State → State) (InitUART2 : State → State)
    (s0 : State) (env : List Event) :
    (mainInit newClk InitUART2 s0).prog_st = state_t.MODE0 ∧
    (∀ s : State, mainLoopBody s = s) ∧
    (mainLoop env (mainInit newClk InitUART2 s0)).prog_st = state_t.MODE0 ∧
    (mainLoop env (mainInit newClk InitUART2 s0)).uart
      = (mainInit newClk InitUART2 s0).uart := by
  refine ⟨rfl, ?_, ?_, (mainLoop_eq env _).2⟩
  · intro s
    unfold mainLoopBody
    cases s.prog_st <;> rfl
  · rw [(mainLoop_eq env _).1]
    rfl

end Lab04
